import Mathlib

/-!
Shallow embedding of the command-invocation and editing-mode core of
`src/js/imageEditor.js` (tui.image-editor facade).

The facade's methods are modelled as pure state transformers on an `Editor`
record. Observable side effects on the external collaborators (cropper,
free-drawing, text and icon components, the fabric canvas) and outbound
notifications (`this.fire(...)`) are recorded in an append-only effect log,
so both the effects performed and their order are part of the model.

The Invoker (`./invoker`) and the command factory (`./factory/command`) are
not part of the sources; the definitions that stand in for them are modelled
from the spec and say so in their doc comments.
-/

namespace ImageEditor

/-- Editor states, from `consts.states` (NORMAL / CROP / FREE_DRAWING / TEXT). -/
inductive EditorState
  | NORMAL
  | CROP
  | FREE_DRAWING
  | TEXT
deriving DecidableEq, Repr

/-- The kind of a fabric object, as tested by `obj.isType(...)` in the source. -/
inductive ObjType
  | text
  | cropzone
  | other
deriving DecidableEq, Repr

/-- A canvas object: its fabric type, its text content (meaningful for text
objects, `obj.text`), and whether `tui.util.hasStamp(obj)` holds, i.e. the
object is already tracked by the editor. -/
structure FObject where
  id : Nat
  objType : ObjType
  text : String
  stamped : Bool
deriving DecidableEq, Repr

/-- The canvas default cursor values assigned by the source
(`'default'` and `'text'`). -/
inductive Cursor
  | default
  | text
deriving DecidableEq, Repr

/-- The slice of the fabric canvas the facade reads and writes: the object
list, the `selection` flag, `defaultCursor`, whether the facade's
`mouse:down` listener is attached, the active object / active group, and the
canvas element's current css dimensions (read by
`_callbackAfterImageLoading`). -/
structure Canvas where
  objects : List FObject
  selection : Bool
  defaultCursor : Cursor
  mouseDownAttached : Bool
  activeObject : Option FObject
  activeGroup : Option FObject
  elemWidth : Nat
  elemHeight : Nat
deriving DecidableEq, Repr

/-- The cropped-image descriptor `{url, imageName}` returned by the crop
collaborator's `end(apply)`. -/
structure CropData where
  url : String
  imageName : String
deriving DecidableEq, Repr

/-- `'flipX' | 'flipY' | 'reset'`, the argument of `_flip`. -/
inductive FlipType
  | flipX
  | flipY
  | reset
deriving DecidableEq, Repr

/-- `'rotate' | 'setAngle'`, the argument of `_rotate`. -/
inductive RotateType
  | rotate
  | setAngle
deriving DecidableEq, Repr

/-- Commands built by `commandFactory.create` at the facade's call sites
(`consts.commandNames`), with the bound arguments the facade passes. -/
inductive Cmd
  | loadImage (imageName url : String)
  | clearObjects
  | addObject (objId : Nat)
  | removeObject (target : Option Nat)
  | flipImage (flipType : FlipType)
  | rotateImage (rotateType : RotateType) (angle : Int)
deriving DecidableEq, Repr

/-- Outbound notifications fired through `this.fire(events.X)`; payload-free
ones are identified by name, payload-carrying ones get their own effect
constructor below. -/
inductive EventName
  | pushUndoStack
  | pushRedoStack
  | emptyUndoStack
  | emptyRedoStack
  | clearImage
  | clearObjects
  | startCropping
  | endCropping
  | startFreeDrawing
  | endFreeDrawing
deriving DecidableEq, Repr

/-- One observable step: either a notification fired by the facade or a call
into an external collaborator (cropper / free-drawing / text components, the
canvas, or the Invoker's command actions). -/
inductive Effect
  | fired (name : EventName)
  | firedLoadImage (originalWidth originalHeight currentWidth currentHeight : Nat)
  | firedAddObject (objId : Nat)
  | firedRemoveObject (objId : Nat)
  | cropperStartCall
  | cropperEndCall (isApplying : Bool)
  | freeDrawingStartCall
  | freeDrawingEndCall
  | textAddCall (text : String)
  | textChangeCall (objId : Nat) (text : String)
  | textSetStyleCall (objId : Nat) (style : String)
  | canvasDeactivateAll
  | canvasRenderAll
  | execAction (c : Cmd)
  | undoAction (c : Cmd)
  | applyCallback (c : Cmd)
  | applyUndoCallback (c : Cmd)
deriving DecidableEq, Repr

/-- The whole editor: `this._state`, the Invoker's two stacks, the canvas,
the crop collaborator's transient state (whether a crop region is currently
defined, and the descriptor it would produce), and the effect log. -/
structure Editor where
  state : EditorState
  undoStack : List Cmd
  redoStack : List Cmd
  canvas : Canvas
  cropRegionDefined : Bool
  cropData : CropData
  log : List Effect
deriving DecidableEq, Repr

/-- Append one effect to the log. -/
def logEffect (e : Editor) (eff : Effect) : Editor :=
  { e with log := e.log ++ [eff] }

/-- `this.fire(events.X)` for a payload-free event. -/
def fireEvent (e : Editor) (name : EventName) : Editor :=
  logEffect e (Effect.fired name)

/-- Whether an object is an empty text object, the condition
`obj.isType('text') && obj.text === ''` of `endTextMode`'s sweep. -/
def isEmptyText (o : FObject) : Bool :=
  o.objType = ObjType.text && o.text = ""

/-- The sweep in `endTextMode`: `this._canvas.forEachObject(...)` removing
every empty text object via `obj.remove()`; each fabric removal triggers the
`object:removed` handler, which fires a `removeObject` notification. -/
def removeEmptyTexts (e : Editor) : Editor :=
  { e with
    canvas := { e.canvas with objects := e.canvas.objects.filter (fun o => !(isEmptyText o)) },
    log := e.log ++ (e.canvas.objects.filter isEmptyText).map (fun o => Effect.firedRemoveObject o.id) }

/-- `endTextMode` (source lines 738-752): the state flag is reset only when
the current state is TEXT, but the empty-text sweep, the `selection` /
`defaultCursor` restoration and the `mouse:down` listener removal run
unconditionally. -/
def endTextMode (e : Editor) : Editor :=
  let e := if e.state = EditorState.TEXT then { e with state := EditorState.NORMAL } else e
  let e := removeEmptyTexts e
  { e with canvas := { e.canvas with
      selection := true,
      defaultCursor := Cursor.default,
      mouseDownAttached := false } }

/-- `endFreeDrawing` (source lines 613-625): early return unless in
FREE_DRAWING; otherwise calls the free-drawing collaborator's `end()`, sets
state to NORMAL and fires `endFreeDrawing`. -/
def endFreeDrawing (e : Editor) : Editor :=
  if e.state ≠ EditorState.FREE_DRAWING then e
  else
    let e := logEffect e Effect.freeDrawingEndCall
    let e := { e with state := EditorState.NORMAL }
    fireEvent e EventName.endFreeDrawing

/-- Modelled from the spec: the crop collaborator's `end(apply)`
(`component/cropper` is not under src/). Per the spec it "returns either
nothing, or a cropped-image descriptor when `apply` is true and a crop
region was defined". -/
def cropperEndResult (e : Editor) (isApplying : Bool) : Option CropData :=
  if isApplying && e.cropRegionDefined then some e.cropData else none

/-- The body of `endCropping` (source lines 429-447) up to but excluding the
chained `loadImageFromURL`: guard on CROP, set state to NORMAL, call the
cropper's `end(isApplying)`, fire `endCropping`, and return the descriptor
(if any) that the source would chain on. The chaining itself is
`endCropping` below; `endAll` calls this core because its `endCropping()`
call passes a falsy `isApplying`, for which the cropper provably returns no
descriptor (theorem `endCropping_false_no_chain`). -/
def endCroppingRun (e : Editor) (isApplying : Bool) : Editor × Option CropData :=
  if e.state ≠ EditorState.CROP then (e, none)
  else
    let e := { e with state := EditorState.NORMAL }
    let data := cropperEndResult e isApplying
    let e := logEffect e (Effect.cropperEndCall isApplying)
    let e := fireEvent e EventName.endCropping
    (e, data)

/-- `deactivateAll` (source lines 273-276): `canvas.deactivateAll()` then
`canvas.renderAll()`. -/
def deactivateAll (e : Editor) : Editor :=
  let e := { e with
    canvas := { e.canvas with activeObject := none, activeGroup := none },
    log := e.log ++ [Effect.canvasDeactivateAll] }
  logEffect e Effect.canvasRenderAll

/-- `endAll` (source lines 259-265): `endTextMode(); endFreeDrawing();
endCropping(); deactivateAll(); this._state = NORMAL`. The no-argument
`endCropping()` call passes a falsy `isApplying`, so its chained-load branch
is dead (`cropper.end(falsy)` returns no descriptor); it is therefore
embedded through `endCroppingRun` — `endCropping_false_no_chain` proves the
two agree at `isApplying = false`. -/
def endAll (e : Editor) : Editor :=
  let e := endTextMode e
  let e := endFreeDrawing e
  let e := (endCroppingRun e false).1
  let e := deactivateAll e
  { e with state := EditorState.NORMAL }

/-- Modelled from the spec: the Invoker's `clearRedoStack()` (`invoker.js` is
not under src/): "discard all entries on the named stack; if it was
non-empty, fire the corresponding empty-stack notification. Must not alter
the other stack." -/
def invokerClearRedoStack (e : Editor) : Editor :=
  if e.redoStack = [] then e
  else fireEvent { e with redoStack := [] } EventName.emptyRedoStack

/-- Modelled from the spec: the Invoker's `pushUndoStack(command)` used by
the `object:added` auto-record path (`invoker.js` is not under src/): pushes
the command onto the undo stack and emits the push-undo-stack lifecycle
notification. -/
def invokerPushUndoStack (e : Editor) (command : Cmd) : Editor :=
  fireEvent { e with undoStack := command :: e.undoStack } EventName.pushUndoStack

/-- Modelled from the spec: the Invoker's `invoke(command)` (`invoker.js` is
not under src/): "runs the command's execute action, ... pushes the command
onto the undo stack, clears the redo stack entirely (firing an
empty-redo-stack notification if it was non-empty), fires a push-undo-stack
notification, and finally invokes the command's on-apply callback (if set)
with the execute result". The concrete command actions and callbacks
(`factory/command.js`, also absent from src/) are abstracted as logged
`execAction` / `applyCallback` effects on the document-independent state. -/
def invokerInvoke (e : Editor) (command : Cmd) : Editor :=
  let e := logEffect e (Effect.execAction command)
  let e := { e with undoStack := command :: e.undoStack }
  let e := invokerClearRedoStack e
  let e := fireEvent e EventName.pushUndoStack
  logEffect e (Effect.applyCallback command)

/-- Modelled from the spec: the Invoker's `undo()` (`invoker.js` is not
under src/): "no-op on empty undo stack. Otherwise pops top command, runs
its undo action, ... pushes onto redo stack (firing push-redo-stack
notification), fires empty-undo-stack notification if the undo stack is now
empty, and invokes the command's on-apply callback bound by
`setUndoCallback` with the undo result." -/
def invokerUndo (e : Editor) : Editor :=
  match e.undoStack with
  | [] => e
  | command :: rest =>
    let e := { e with undoStack := rest }
    let e := logEffect e (Effect.undoAction command)
    let e := fireEvent { e with redoStack := command :: e.redoStack } EventName.pushRedoStack
    let e := if e.undoStack = [] then fireEvent e EventName.emptyUndoStack else e
    logEffect e (Effect.applyUndoCallback command)

/-- `execute` (source lines 282-285): `this.endAll(); this._invoker.invoke(command)`. -/
def execute (e : Editor) (command : Cmd) : Editor :=
  invokerInvoke (endAll e) command

/-- The facade's `undo` (source lines 293-296): `this.endAll(); this._invoker.undo()`. -/
def undo (e : Editor) : Editor :=
  invokerUndo (endAll e)

/-- `loadImageFromURL` (source lines 336-359): early return when `url` or
`imageName` is falsy (the empty string here); otherwise builds the
LOAD_IMAGE command and routes it through `execute`. The execute/undo
callbacks it binds on the command are embedded separately as
`callbackAfterImageLoading` and `loadImageUndoCallback`. -/
def loadImageFromURL (e : Editor) (url imageName : String) : Editor :=
  if imageName = "" ∨ url = "" then e
  else execute e (Cmd.loadImage imageName url)

/-- A `File` argument of `loadImageFromFile`: its `name` and the object URL
`URL.createObjectURL(imgFile)` would mint for it. -/
structure FileData where
  name : String
  objectURL : String
deriving DecidableEq, Repr

/-- `loadImageFromFile` (source lines 317-326): early return on a falsy
file (`none`); otherwise delegates to `loadImageFromURL` with the object
URL and `imageName || imgFile.name` (a falsy `imageName` is the empty
string). -/
def loadImageFromFile (e : Editor) (imgFile : Option FileData) (imageName : String) : Editor :=
  match imgFile with
  | none => e
  | some f => loadImageFromURL e f.objectURL (if imageName = "" then f.name else imageName)

/-- `endCropping` (source lines 429-447): the guarded core
(`endCroppingRun`) followed by the chained
`loadImageFromURL(data.url, data.imageName)` when a descriptor was
returned. -/
def endCropping (e : Editor) (isApplying : Bool) : Editor :=
  match endCroppingRun e isApplying with
  | (e1, some data) => loadImageFromURL e1 data.url data.imageName
  | (e1, none) => e1

/-- `startCropping` (source lines 400-416): no-op when already in CROP;
otherwise `endAll()`, set state to CROP, start the crop collaborator, fire
`startCropping`. -/
def startCropping (e : Editor) : Editor :=
  if e.state = EditorState.CROP then e
  else
    let e := endAll e
    let e := { e with state := EditorState.CROP }
    let e := logEffect e Effect.cropperStartCall
    fireEvent e EventName.startCropping

/-- `startFreeDrawing` (source lines 571-585): no-op when already in
FREE_DRAWING; otherwise `endAll()`, start the free-drawing collaborator
(with the brush setting), set state to FREE_DRAWING, fire
`startFreeDrawing`. -/
def startFreeDrawing (e : Editor) : Editor :=
  if e.state = EditorState.FREE_DRAWING then e
  else
    let e := endAll e
    let e := logEffect e Effect.freeDrawingStartCall
    let e := { e with state := EditorState.FREE_DRAWING }
    fireEvent e EventName.startFreeDrawing

/-- `startTextMode` (source lines 634-648): calls `endAll()` first, then
checks the already-in-TEXT guard (dead after `endAll`, which leaves state
NORMAL), then sets state to TEXT, registers the `mouse:down` listener and
reassigns `selection` / `defaultCursor`. -/
def startTextMode (e : Editor) : Editor :=
  let e := endAll e
  if e.state = EditorState.TEXT then e
  else
    let e := { e with state := EditorState.TEXT }
    { e with canvas := { e.canvas with
        selection := false,
        defaultCursor := Cursor.text,
        mouseDownAttached := true } }

/-- `addText` (source lines 678-684): if the current state is not TEXT, set
it to TEXT directly (no `endAll`), then call the text collaborator's
`add(text || '', settings || {})`. -/
def addText (e : Editor) (text : String) : Editor :=
  let e := if e.state ≠ EditorState.TEXT then { e with state := EditorState.TEXT } else e
  logEffect e (Effect.textAddCall text)

/-- `changeText` (source lines 693-702): early return unless the state is
TEXT and there is an active object; otherwise calls the text collaborator's
`change(activeObj, text)`. -/
def changeText (e : Editor) (text : String) : Editor :=
  match e.canvas.activeObject with
  | none => e
  | some activeObj =>
    if e.state ≠ EditorState.TEXT then e
    else logEffect e (Effect.textChangeCall activeObj.id text)

/-- `changeTextStyle` (source lines 720-729): early return unless the state
is TEXT and there is an active object; otherwise calls the text
collaborator's `setStyle(activeObj, styleObj)` (the style payload is kept
opaque). -/
def changeTextStyle (e : Editor) (styleObj : String) : Editor :=
  match e.canvas.activeObject with
  | none => e
  | some activeObj =>
    if e.state ≠ EditorState.TEXT then e
    else logEffect e (Effect.textSetStyleCall activeObj.id styleObj)

/-- `clearObjects` (source lines 237-247): builds the CLEAR_OBJECTS command
(its execute callback fires `clearObjects`, abstracted into the invoke
apply-callback effect) and routes it through `execute`. -/
def clearObjects (e : Editor) : Editor :=
  execute e Cmd.clearObjects

/-- `_flip` (source lines 454-475): builds a FLIP_IMAGE command with the
given type and routes it through `execute`. -/
def flip (e : Editor) (flipType : FlipType) : Editor :=
  execute e (Cmd.flipImage flipType)

/-- `flipX` (source lines 483-485). -/
def flipX (e : Editor) : Editor :=
  flip e FlipType.flipX

/-- `flipY` (source lines 493-495). -/
def flipY (e : Editor) : Editor :=
  flip e FlipType.flipY

/-- `resetFlip` (source lines 503-505). -/
def resetFlip (e : Editor) : Editor :=
  flip e FlipType.reset

/-- `_rotate` (source lines 512-528): builds a ROTATE_IMAGE command with the
given type and angle and routes it through `execute`. -/
def rotateCmd (e : Editor) (rotateType : RotateType) (angle : Int) : Editor :=
  execute e (Cmd.rotateImage rotateType angle)

/-- `rotate` (source lines 540-542). -/
def rotate (e : Editor) (angle : Int) : Editor :=
  rotateCmd e RotateType.rotate angle

/-- `setAngle` (source lines 555-557). -/
def setAngle (e : Editor) (angle : Int) : Editor :=
  rotateCmd e RotateType.setAngle angle

/-- The target of `removeActiveObject`:
`canvas.getActiveObject() || canvas.getActiveGroup()`. -/
def activeTarget (e : Editor) : Option FObject :=
  match e.canvas.activeObject with
  | some o => some o
  | none => e.canvas.activeGroup

/-- `removeActiveObject` (source lines 836-842): builds a REMOVE_OBJECT
command for the active object or group and routes it through `execute`. -/
def removeActiveObject (e : Editor) : Editor :=
  execute e (Cmd.removeObject ((activeTarget e).map (fun o => o.id)))

/-- The `object:added` canvas handler (source lines 94-117): cropzone objects
are ignored; an untracked object (`!tui.util.hasStamp(obj)`) is auto-recorded
as an ADD_OBJECT command via `pushUndoStack` + `clearRedoStack`; in every
non-cropzone case the `addObject` notification fires. -/
def onObjectAdded (e : Editor) (obj : FObject) : Editor :=
  if obj.objType = ObjType.cropzone then e
  else
    let e :=
      if !obj.stamped then
        invokerClearRedoStack (invokerPushUndoStack e (Cmd.addObject obj.id))
      else e
    logEffect e (Effect.firedAddObject obj.id)

/-- A loaded fabric image: its original dimensions (`oImage.width`,
`oImage.height`). -/
structure FImage where
  width : Nat
  height : Nat
deriving DecidableEq, Repr

/-- `_callbackAfterImageLoading` (source lines 366-392): fires the
`loadImage` notification with the image's original dimensions and the canvas
element's current css dimensions. -/
def callbackAfterImageLoading (e : Editor) (oImage : FImage) : Editor :=
  logEffect e (Effect.firedLoadImage oImage.width oImage.height e.canvas.elemWidth e.canvas.elemHeight)

/-- The undo callback `loadImageFromURL` binds on the LOAD_IMAGE command
(source lines 347-357): a truthy undo result goes through
`_callbackAfterImageLoading`, a null result fires `clearImage` instead. -/
def loadImageUndoCallback (e : Editor) (oImage : Option FImage) : Editor :=
  match oImage with
  | some img => callbackAfterImageLoading e img
  | none => fireEvent e EventName.clearImage

/-- The effects contributed by the Text-exit step of `endAll`: one
`removeObject` notification per empty text object swept. -/
def textExitEffects (e : Editor) : List Effect :=
  (e.canvas.objects.filter isEmptyText).map (fun o => Effect.firedRemoveObject o.id)

/-- The effects contributed by the Free-Drawing-exit step of `endAll`,
conditional on the mode that was active when `endAll` was entered. -/
def freeDrawingExitEffects (e : Editor) : List Effect :=
  if e.state = EditorState.FREE_DRAWING then
    [Effect.freeDrawingEndCall, Effect.fired EventName.endFreeDrawing]
  else []

/-- The effects contributed by the Crop-exit step of `endAll`, conditional
on the mode that was active when `endAll` was entered. -/
def cropExitEffects (e : Editor) : List Effect :=
  if e.state = EditorState.CROP then
    [Effect.cropperEndCall false, Effect.fired EventName.endCropping]
  else []

/-- The full effect trace of `endAll e`: Text-exit, then Free-Drawing-exit,
then Crop-exit, then the deactivate-selection step, in that fixed order. -/
def endAllEffects (e : Editor) : List Effect :=
  textExitEffects e ++ freeDrawingExitEffects e ++ cropExitEffects e ++
    [Effect.canvasDeactivateAll, Effect.canvasRenderAll]

/-- The effect trace of the Invoker's `invoke(command)` on an editor `e`:
the execute action, the empty-redo-stack notification when the redo stack
was non-empty, the push-undo-stack notification, and the on-apply
callback — in that order. -/
def invokeEffects (e : Editor) (c : Cmd) : List Effect :=
  Effect.execAction c ::
    (if e.redoStack = [] then [] else [Effect.fired EventName.emptyRedoStack]) ++
    [Effect.fired EventName.pushUndoStack, Effect.applyCallback c]

/-- The empty string, the falsy `url` / `imageName` argument value. -/
def emptyStr : String := ""

/-- A quiescent sample canvas. -/
def sampleCanvas : Canvas :=
  { objects := []
    selection := true
    defaultCursor := Cursor.default
    mouseDownAttached := false
    activeObject := none
    activeGroup := none
    elemWidth := 300
    elemHeight := 200 }

/-- Sample crop descriptor. -/
def sampleCropData : CropData :=
  { url := "blob-42", imageName := "cropped" }

/-- A quiescent sample editor in NORMAL mode with empty stacks and log. -/
def sampleEditor : Editor :=
  { state := EditorState.NORMAL
    undoStack := []
    redoStack := []
    canvas := sampleCanvas
    cropRegionDefined := false
    cropData := sampleCropData
    log := [] }

/-- An empty, uncommitted text object. -/
def emptyTextObj : FObject :=
  { id := 7, objType := ObjType.text, text := "", stamped := true }

/-- A fresh, untracked non-cropzone object as seen by `object:added`. -/
def freshObj : FObject :=
  { id := 9, objType := ObjType.other, text := "", stamped := false }

/-- Sample text payload. -/
def sampleText : String := "hello"

/-- Sample url / image name arguments. -/
def sampleUrl : String := "http-img"

/-- Sample image name argument. -/
def sampleImageName : String := "lena"

theorem endCropping_false_no_chain (e : Editor) :
    endCropping e false = (endCroppingRun e false).1 := by
  by_cases h : e.state = EditorState.CROP <;>
    simp [endCropping, endCroppingRun, cropperEndResult, h]

theorem endAll_state (e : Editor) : (endAll e).state = EditorState.NORMAL := rfl

theorem endAll_log (e : Editor) : (endAll e).log = e.log ++ endAllEffects e := by
  obtain ⟨st, us, rs, cv, crd, cd, lg⟩ := e
  cases st <;>
    simp [endAll, endTextMode, removeEmptyTexts, endFreeDrawing, endCroppingRun,
      cropperEndResult, deactivateAll, endAllEffects, textExitEffects,
      freeDrawingExitEffects, cropExitEffects, logEffect, fireEvent]

theorem endAll_undoStack (e : Editor) : (endAll e).undoStack = e.undoStack := by
  obtain ⟨st, us, rs, cv, crd, cd, lg⟩ := e
  cases st <;>
    simp [endAll, endTextMode, removeEmptyTexts, endFreeDrawing, endCroppingRun,
      cropperEndResult, deactivateAll, logEffect, fireEvent]

theorem endAll_redoStack (e : Editor) : (endAll e).redoStack = e.redoStack := by
  obtain ⟨st, us, rs, cv, crd, cd, lg⟩ := e
  cases st <;>
    simp [endAll, endTextMode, removeEmptyTexts, endFreeDrawing, endCroppingRun,
      cropperEndResult, deactivateAll, logEffect, fireEvent]

/-- C1 (counterexample): `addText` is a facade path that makes Text the
current mode, yet from Free-Drawing mode it performs no exit action at all —
the resulting log holds only the text collaborator call, with no
Free-Drawing exit, no Crop exit and no deactivate-selection step, refuting
the claim that every transition into Text first performs the exit actions of
Text, Free-Drawing and Crop and a deactivate step. -/
theorem addText_transition_skips_exit_actions :
    (addText { sampleEditor with state := EditorState.FREE_DRAWING } sampleText).state
        = EditorState.TEXT ∧
    (addText { sampleEditor with state := EditorState.FREE_DRAWING } sampleText).log
        = [Effect.textAddCall sampleText] := by
  decide

/-- C1 (amended): for the dedicated mode-start methods — `startCropping` and
`startFreeDrawing` when their already-in-mode guard does not fire, and
`startTextMode` always — the effect trace first performs the exit actions of
Text, Free-Drawing and Crop in that fixed order followed by the generic
deactivate-selection step (`endAllEffects`), before the target mode's start
effects; `addText`, however, makes Text current without any exit action
(see the counterexample). -/
theorem start_mode_transitions_run_exits_in_order (e : Editor) :
    (e.state ≠ EditorState.CROP →
      (startCropping e).log =
        e.log ++ endAllEffects e ++
          [Effect.cropperStartCall, Effect.fired EventName.startCropping]) ∧
    (e.state ≠ EditorState.FREE_DRAWING →
      (startFreeDrawing e).log =
        e.log ++ endAllEffects e ++
          [Effect.freeDrawingStartCall, Effect.fired EventName.startFreeDrawing]) ∧
    (startTextMode e).log = e.log ++ endAllEffects e := by
  refine ⟨?_, ?_, ?_⟩
  · intro h
    simp [startCropping, h, logEffect, fireEvent, endAll_log]
  · intro h
    simp [startFreeDrawing, h, logEffect, fireEvent, endAll_log]
  · simp [startTextMode, endAll_state, endAll_log]

/-- C1 (witness): the amended theorem applied to a concrete editor in Text
mode entering Crop mode. -/
theorem start_mode_transitions_run_exits_in_order_witness :
    (startCropping { sampleEditor with state := EditorState.TEXT }).log =
      ({ sampleEditor with state := EditorState.TEXT } : Editor).log ++
        endAllEffects { sampleEditor with state := EditorState.TEXT } ++
        [Effect.cropperStartCall, Effect.fired EventName.startCropping] :=
  (start_mode_transitions_run_exits_in_order
    { sampleEditor with state := EditorState.TEXT }).1 (by decide)

/-- C2 (counterexample): with an empty undo stack but the editor in Crop
mode, `undo()` is not free of effect — the facade's unconditional `endAll()`
changes the current mode to Normal, refuting the claim that the current mode
is left unchanged. -/
theorem undo_on_empty_stack_changes_mode :
    ({ sampleEditor with state := EditorState.CROP } : Editor).undoStack = [] ∧
    ({ sampleEditor with state := EditorState.CROP } : Editor).state = EditorState.CROP ∧
    (undo { sampleEditor with state := EditorState.CROP }).state = EditorState.NORMAL := by
  decide

/-- C2 (amended): on an empty undo stack the Invoker part of `undo()` is a
genuine no-op — both stacks are left as they were (in particular empty undo,
unchanged redo) and no command is popped or replayed — but the whole facade
call is exactly `endAll()`, which may still change the mode and the
document. -/
theorem undo_on_empty_stack_is_endAll (e : Editor) (h : e.undoStack = []) :
    undo e = endAll e ∧ (undo e).undoStack = [] ∧ (undo e).redoStack = e.redoStack := by
  have h1 : (endAll e).undoStack = [] := by rw [endAll_undoStack, h]
  have h2 : undo e = endAll e := by
    simp [undo, invokerUndo, h1]
  refine ⟨h2, ?_, ?_⟩
  · rw [h2, h1]
  · rw [h2, endAll_redoStack]

/-- C2 (witness): the amended theorem at the quiescent sample editor. -/
theorem undo_on_empty_stack_is_endAll_witness :
    undo sampleEditor = endAll sampleEditor ∧
    (undo sampleEditor).undoStack = [] ∧
    (undo sampleEditor).redoStack = sampleEditor.redoStack :=
  undo_on_empty_stack_is_endAll sampleEditor (by decide)

/-- C3 (counterexample): with the editor in Normal mode (not Text), a canvas
holding one empty text object and the selection flag off, `endTextMode()`
still removes the object and flips the selection flag back on — refuting the
claim that outside Text mode it changes nothing observable. -/
theorem endTextMode_outside_text_mutates :
    ({ sampleEditor with
        canvas := { sampleCanvas with objects := [emptyTextObj], selection := false } } :
          Editor).state ≠ EditorState.TEXT ∧
    (endTextMode { sampleEditor with
        canvas := { sampleCanvas with objects := [emptyTextObj], selection := false } }
      ).canvas.objects = [] ∧
    (endTextMode { sampleEditor with
        canvas := { sampleCanvas with objects := [emptyTextObj], selection := false } }
      ).canvas.selection = true := by
  decide

/-- C3 (amended): `endFreeDrawing` and `endCropping` are self-guarding —
outside their modes they are exact no-ops. `endTextMode` guards only the
mode flag: outside Text mode it leaves the mode and the stacks unchanged,
but it still unconditionally sweeps empty text objects out of the document,
resets the selection flag and default cursor and detaches the mouse-down
listener. -/
theorem exit_steps_guard_behaviour (e : Editor) :
    (e.state ≠ EditorState.FREE_DRAWING → endFreeDrawing e = e) ∧
    (∀ b, e.state ≠ EditorState.CROP → endCropping e b = e) ∧
    (e.state ≠ EditorState.TEXT →
      (endTextMode e).state = e.state ∧
      (endTextMode e).undoStack = e.undoStack ∧
      (endTextMode e).redoStack = e.redoStack ∧
      (endTextMode e).canvas.selection = true ∧
      (endTextMode e).canvas.defaultCursor = Cursor.default ∧
      (endTextMode e).canvas.mouseDownAttached = false ∧
      (endTextMode e).canvas.objects = e.canvas.objects.filter (fun o => !(isEmptyText o)) ∧
      (endTextMode e).log = e.log ++ textExitEffects e) := by
  refine ⟨?_, ?_, ?_⟩
  · intro h
    simp [endFreeDrawing, h]
  · intro b h
    simp [endCropping, endCroppingRun, h]
  · intro h
    simp [endTextMode, removeEmptyTexts, h, textExitEffects]

/-- C3 (witness): the amended theorem at concrete editors outside each
mode. -/
theorem exit_steps_guard_behaviour_witness :
    endFreeDrawing sampleEditor = sampleEditor ∧
    endCropping sampleEditor true = sampleEditor ∧
    (endTextMode sampleEditor).canvas.selection = true :=
  ⟨(exit_steps_guard_behaviour sampleEditor).1 (by decide),
   (exit_steps_guard_behaviour sampleEditor).2.1 true (by decide),
   ((exit_steps_guard_behaviour sampleEditor).2.2 (by decide)).2.2.2.1⟩

/-- C5 (counterexample): with the editor already in Text mode and one empty
text object on the canvas, `startTextMode()` is not a no-op — the exit
actions re-run (the empty text object is swept away, the deactivate-selection
step runs) because `endAll()` is called before the already-in-Text guard,
which can then never fire. -/
theorem startTextMode_in_text_not_noop :
    ({ sampleEditor with
        state := EditorState.TEXT,
        canvas := { sampleCanvas with objects := [emptyTextObj] } } : Editor).state
      = EditorState.TEXT ∧
    (startTextMode { sampleEditor with
        state := EditorState.TEXT,
        canvas := { sampleCanvas with objects := [emptyTextObj] } }).canvas.objects = [] ∧
    (startTextMode { sampleEditor with
        state := EditorState.TEXT,
        canvas := { sampleCanvas with objects := [emptyTextObj] } }).log =
      [Effect.firedRemoveObject 7, Effect.canvasDeactivateAll, Effect.canvasRenderAll] := by
  decide

/-- C5 (amended): `startTextMode()` does not follow the guard-then-transition
pattern of the other mode starts: it runs `endAll()` unconditionally first
(so from Text mode the exit actions re-run), its already-in-Text guard is
dead code afterwards, and it always ends in Text mode with the text-mode
canvas settings reassigned. -/
theorem startTextMode_always_runs_endAll (e : Editor) :
    (startTextMode e).log = e.log ++ endAllEffects e ∧
    (startTextMode e).state = EditorState.TEXT ∧
    (startTextMode e).canvas.selection = false ∧
    (startTextMode e).canvas.defaultCursor = Cursor.text ∧
    (startTextMode e).canvas.mouseDownAttached = true := by
  refine ⟨?_, ?_, ?_, ?_, ?_⟩ <;>
    simp [startTextMode, endAll_state, endAll_log]

theorem invokerClearRedoStack_state (e : Editor) :
    (invokerClearRedoStack e).state = e.state := by
  by_cases h : e.redoStack = [] <;> simp [invokerClearRedoStack, h, fireEvent, logEffect]

theorem invokerClearRedoStack_undoStack (e : Editor) :
    (invokerClearRedoStack e).undoStack = e.undoStack := by
  by_cases h : e.redoStack = [] <;> simp [invokerClearRedoStack, h, fireEvent, logEffect]

theorem invokerClearRedoStack_redoStack (e : Editor) :
    (invokerClearRedoStack e).redoStack = [] := by
  by_cases h : e.redoStack = [] <;> simp [invokerClearRedoStack, h, fireEvent, logEffect]

theorem invokerInvoke_state (e : Editor) (c : Cmd) :
    (invokerInvoke e c).state = e.state := by
  simp [invokerInvoke, fireEvent, logEffect, invokerClearRedoStack_state]

theorem invokerInvoke_undoStack (e : Editor) (c : Cmd) :
    (invokerInvoke e c).undoStack = c :: e.undoStack := by
  simp [invokerInvoke, fireEvent, logEffect, invokerClearRedoStack_undoStack]

theorem invokerInvoke_redoStack (e : Editor) (c : Cmd) :
    (invokerInvoke e c).redoStack = [] := by
  simp [invokerInvoke, fireEvent, logEffect, invokerClearRedoStack_redoStack]

theorem invokerInvoke_log (e : Editor) (c : Cmd) :
    (invokerInvoke e c).log = e.log ++ invokeEffects e c := by
  by_cases h : e.redoStack = [] <;>
    simp [invokerInvoke, invokerClearRedoStack, h, fireEvent, logEffect, invokeEffects]

theorem execute_state (e : Editor) (c : Cmd) :
    (execute e c).state = EditorState.NORMAL := by
  rw [execute, invokerInvoke_state, endAll_state]

theorem execute_undoStack (e : Editor) (c : Cmd) :
    (execute e c).undoStack = c :: e.undoStack := by
  rw [execute, invokerInvoke_undoStack, endAll_undoStack]

theorem execute_redoStack (e : Editor) (c : Cmd) :
    (execute e c).redoStack = [] := by
  rw [execute, invokerInvoke_redoStack]

theorem execute_log (e : Editor) (c : Cmd) :
    (execute e c).log = e.log ++ endAllEffects e ++ invokeEffects (endAll e) c := by
  rw [execute, invokerInvoke_log, endAll_log, List.append_assoc]

theorem loadImageFromURL_state_of_normal (e : Editor) (url imageName : String)
    (h : e.state = EditorState.NORMAL) :
    (loadImageFromURL e url imageName).state = EditorState.NORMAL := by
  by_cases hc : imageName = "" ∨ url = "" <;>
    simp [loadImageFromURL, hc, execute_state, h]

/-- C4: `endCropping(apply)` is a no-op outside Crop mode; in Crop mode it
always ends in Normal mode; it chains into `loadImageFromURL` with the
descriptor's url/name exactly when the cropper returned a descriptor
(`apply` true and a crop region defined) — pushing the LOAD_IMAGE command
when the descriptor's fields are non-falsy — and when no descriptor is
returned it only finalizes and notifies, with both stacks unchanged. -/
theorem endCropping_spec (e : Editor) (b : Bool) :
    (e.state ≠ EditorState.CROP → endCropping e b = e) ∧
    (e.state = EditorState.CROP → (endCropping e b).state = EditorState.NORMAL) ∧
    (e.state = EditorState.CROP → (b && e.cropRegionDefined) = true →
      endCropping e b =
        loadImageFromURL (endCroppingRun e b).1 e.cropData.url e.cropData.imageName) ∧
    (e.state = EditorState.CROP → (b && e.cropRegionDefined) = true →
      e.cropData.url ≠ "" → e.cropData.imageName ≠ "" →
      (endCropping e b).undoStack =
        Cmd.loadImage e.cropData.imageName e.cropData.url :: e.undoStack) ∧
    (e.state = EditorState.CROP → (b && e.cropRegionDefined) = false →
      (endCropping e b).undoStack = e.undoStack ∧
      (endCropping e b).redoStack = e.redoStack ∧
      (endCropping e b).log =
        e.log ++ [Effect.cropperEndCall b, Effect.fired EventName.endCropping]) := by
  by_cases h : e.state = EditorState.CROP
  · have hrun : endCroppingRun e b =
        (({ e with
            state := EditorState.NORMAL,
            log := e.log ++ [Effect.cropperEndCall b, Effect.fired EventName.endCropping] } :
              Editor),
          if (b && e.cropRegionDefined) = true then some e.cropData else none) := by
      simp [endCroppingRun, cropperEndResult, h, logEffect, fireEvent]
    by_cases hd : (b && e.cropRegionDefined) = true
    · have hchain : endCropping e b =
          loadImageFromURL
            { e with
              state := EditorState.NORMAL,
              log := e.log ++ [Effect.cropperEndCall b, Effect.fired EventName.endCropping] }
            e.cropData.url e.cropData.imageName := by
        simp [endCropping, hrun, hd]
      refine ⟨fun hn => absurd h hn, fun _ => ?_, fun _ _ => ?_, fun _ _ hu hn => ?_,
        fun _ hf => absurd hd (by simp [hf])⟩
      · rw [hchain]
        exact loadImageFromURL_state_of_normal _ _ _ rfl
      · rw [hchain, hrun]
      · rw [hchain]
        have hcond : ¬(e.cropData.imageName = "" ∨ e.cropData.url = "") := by
          intro hor
          rcases hor with h1 | h1
          · exact hn h1
          · exact hu h1
        simp only [loadImageFromURL, if_neg hcond]
        rw [execute_undoStack]
    · have hnone : endCropping e b =
          { e with
            state := EditorState.NORMAL,
            log := e.log ++ [Effect.cropperEndCall b, Effect.fired EventName.endCropping] } := by
        simp [endCropping, hrun, hd]
      refine ⟨fun hn => absurd h hn, fun _ => ?_, fun _ hdt => absurd hdt hd,
        fun _ hdt _ _ => absurd hdt hd, fun _ _ => ?_⟩
      · rw [hnone]
      · rw [hnone]
        exact ⟨rfl, rfl, rfl⟩
  · have hnoop : endCropping e b = e := by
      simp [endCropping, endCroppingRun, h]
    exact ⟨fun _ => hnoop, fun hc => absurd hc h, fun hc _ => absurd hc h,
      fun hc _ _ _ => absurd hc h, fun hc _ => absurd hc h⟩

/-- C4 (witness): the `startCropping()` then `endCropping(false)` scenario at
the sample editor — mode back to Normal, no chained load, undo stack
unchanged. -/
theorem endCropping_spec_witness :
    (endCropping (startCropping sampleEditor) false).state = EditorState.NORMAL ∧
    (endCropping (startCropping sampleEditor) false).undoStack =
      (startCropping sampleEditor).undoStack :=
  ⟨(endCropping_spec (startCropping sampleEditor) false).2.1 (by decide),
    ((endCropping_spec (startCropping sampleEditor) false).2.2.2.2 (by decide) (by decide)).1⟩

/-- C6: every public mutating facade method builds its Command and routes it
through `execute`, and `execute` runs `endAll()` first — so the Invoker's
execute action always runs while the current mode is Normal, after the full
exit trace, as the logged order shows. -/
theorem mutating_methods_execute_in_normal_mode (e : Editor) :
    (∀ c, execute e c = invokerInvoke (endAll e) c ∧ (endAll e).state = EditorState.NORMAL) ∧
    (∀ c, (execute e c).log = e.log ++ endAllEffects e ++ invokeEffects (endAll e) c) ∧
    clearObjects e = execute e Cmd.clearObjects ∧
    flipX e = execute e (Cmd.flipImage FlipType.flipX) ∧
    flipY e = execute e (Cmd.flipImage FlipType.flipY) ∧
    resetFlip e = execute e (Cmd.flipImage FlipType.reset) ∧
    (∀ a, rotate e a = execute e (Cmd.rotateImage RotateType.rotate a)) ∧
    (∀ a, setAngle e a = execute e (Cmd.rotateImage RotateType.setAngle a)) ∧
    removeActiveObject e =
      execute e (Cmd.removeObject ((activeTarget e).map (fun o => o.id))) ∧
    (∀ url imageName, ¬(imageName = "" ∨ url = "") →
      loadImageFromURL e url imageName = execute e (Cmd.loadImage imageName url)) ∧
    (∀ f imageName, imageName ≠ "" →
      loadImageFromFile e (some f) imageName =
        loadImageFromURL e f.objectURL imageName) := by
  refine ⟨fun c => ⟨rfl, endAll_state e⟩, fun c => execute_log e c, rfl, rfl, rfl, rfl,
    fun a => rfl, fun a => rfl, rfl, fun url imageName h => ?_, fun f imageName h => ?_⟩
  · simp only [loadImageFromURL, if_neg h]
  · simp [loadImageFromFile, h]

/-- C6 (witness): two representative mutating calls at the sample editor. -/
theorem mutating_methods_execute_in_normal_mode_witness :
    clearObjects sampleEditor = execute sampleEditor Cmd.clearObjects ∧
    loadImageFromURL sampleEditor sampleUrl sampleImageName =
      execute sampleEditor (Cmd.loadImage sampleImageName sampleUrl) :=
  ⟨(mutating_methods_execute_in_normal_mode sampleEditor).2.2.1,
    (mutating_methods_execute_in_normal_mode sampleEditor).2.2.2.2.2.2.2.2.2.1
      sampleUrl sampleImageName (by decide)⟩

/-- C7: after a new mutating action — a command routed through `execute`, or
the `object:added` auto-record of an untracked non-cropzone object — the redo
stack is empty and the new command sits on top of the undo stack, whatever
the redo stack held before. -/
theorem new_action_resets_redo_and_tops_undo (e : Editor) :
    (∀ c, (execute e c).redoStack = [] ∧ (execute e c).undoStack = c :: e.undoStack) ∧
    (∀ obj, obj.objType ≠ ObjType.cropzone → obj.stamped = false →
      (onObjectAdded e obj).redoStack = [] ∧
      (onObjectAdded e obj).undoStack = Cmd.addObject obj.id :: e.undoStack) := by
  refine ⟨fun c => ⟨execute_redoStack e c, execute_undoStack e c⟩,
    fun obj h1 h2 => ⟨?_, ?_⟩⟩
  · simp [onObjectAdded, h1, h2, logEffect, invokerClearRedoStack_redoStack]
  · simp [onObjectAdded, h1, h2, logEffect, invokerClearRedoStack_undoStack,
      invokerPushUndoStack, fireEvent]

/-- C7 (witness): a command through `execute` and a fresh object through the
`object:added` handler, both at a sample editor with a non-empty redo
stack. -/
theorem new_action_resets_redo_and_tops_undo_witness :
    (execute { sampleEditor with redoStack := [Cmd.clearObjects] }
        (Cmd.flipImage FlipType.flipX)).redoStack = [] ∧
    (onObjectAdded { sampleEditor with redoStack := [Cmd.clearObjects] } freshObj).undoStack =
      Cmd.addObject freshObj.id ::
        ({ sampleEditor with redoStack := [Cmd.clearObjects] } : Editor).undoStack :=
  ⟨((new_action_resets_redo_and_tops_undo
        { sampleEditor with redoStack := [Cmd.clearObjects] }).1
      (Cmd.flipImage FlipType.flipX)).1,
    ((new_action_resets_redo_and_tops_undo
        { sampleEditor with redoStack := [Cmd.clearObjects] }).2
      freshObj (by decide) (by decide)).2⟩

/-- C8: the undo callback bound on the LOAD_IMAGE command resolves its two
recoverable outcomes through the result path: an image result fires the
`loadImage` notification with the image's original dimensions and the canvas
element's current dimensions, and a null result fires the `clearImage`
notification instead; nothing else about the editor changes. -/
theorem loadImage_undo_callback_branches (e : Editor) (img : FImage) :
    loadImageUndoCallback e (some img) =
      { e with log := e.log ++
          [Effect.firedLoadImage img.width img.height
            e.canvas.elemWidth e.canvas.elemHeight] } ∧
    loadImageUndoCallback e none =
      { e with log := e.log ++ [Effect.fired EventName.clearImage] } :=
  ⟨rfl, rfl⟩

/-- C9: `loadImageFromFile` with a falsy file, and `loadImageFromURL` with a
falsy url or image name, return the editor completely unchanged — no
command, no mode exit, no stack change, no notification. -/
theorem load_with_falsy_args_is_noop (e : Editor) :
    (∀ imageName, loadImageFromFile e none imageName = e) ∧
    (∀ url imageName, imageName = "" ∨ url = "" → loadImageFromURL e url imageName = e) := by
  refine ⟨fun _ => rfl, fun url imageName h => ?_⟩
  simp only [loadImageFromURL, if_pos h]

/-- C9 (witness): a missing file and an empty url at the sample editor. -/
theorem load_with_falsy_args_is_noop_witness :
    loadImageFromFile sampleEditor none sampleImageName = sampleEditor ∧
    loadImageFromURL sampleEditor emptyStr sampleImageName = sampleEditor :=
  ⟨(load_with_falsy_args_is_noop sampleEditor).1 sampleImageName,
    (load_with_falsy_args_is_noop sampleEditor).2 emptyStr sampleImageName (Or.inr rfl)⟩

/-- C10: outside Text mode, or with no active object, `changeText` and
`changeTextStyle` are exact no-ops — the text collaborator is not called and
the editor is unchanged. -/
theorem changeText_outside_guard_is_noop (e : Editor) (text styleObj : String)
    (h : e.state ≠ EditorState.TEXT ∨ e.canvas.activeObject = none) :
    changeText e text = e ∧ changeTextStyle e styleObj = e := by
  cases hao : e.canvas.activeObject with
  | none => simp [changeText, changeTextStyle, hao]
  | some o =>
    have hs : e.state ≠ EditorState.TEXT := by
      rcases h with h1 | h1
      · exact h1
      · rw [hao] at h1
        simp at h1
    constructor <;> simp [changeText, changeTextStyle, hao, hs]

/-- C10 (witness): the sample editor is in Normal mode with no active
object. -/
theorem changeText_outside_guard_is_noop_witness :
    changeText sampleEditor sampleText = sampleEditor ∧
    changeTextStyle sampleEditor sampleText = sampleEditor :=
  changeText_outside_guard_is_noop sampleEditor sampleText sampleText (Or.inl (by decide))

end ImageEditor
